import Mathlib

/-!
Verification of the agents-vs-workflows quiz application.

This file is a shallow embedding, in Lean 4, of the quiz-flow and
stats-aggregation logic of the repository (`src/app.py` and
`src/visualize.py`), together with proofs about the embedded definitions.

Modelling conventions:
* Python strings are Lean `String`s; user votes and correct labels are the
  strings "Agent" and "Workflow" exactly as in the source.
* Session identifiers produced by `uuid.uuid4()` are modelled as an injective
  fresh supply indexed by `Nat`: the application state carries a counter
  `nextFresh`, each generated identifier is the counter's current value, and
  every generated identifier is recorded in `usedIds`.  This models the
  uuid library's contract that freshly drawn identifiers are distinct.
* Python float arithmetic on percentages is modelled exactly with `Rat`.
* A Python `IndexError` (and the resulting failure of a whole
  `DataFrame.apply`) is modelled with `Option`/`Except`.
* Timestamps are opaque `Nat`s (no property depends on them).
* The long code-snippet string of each quiz item is referenced by no
  property and is omitted from the embedded records; titles, correct labels
  and prose explanations are embedded verbatim.
-/

/-- One entry of `QUIZ_DATA` in `src/app.py` (snippet text omitted, see
module comment). -/
structure QuizItem where
  title : String
  correct : String
  explanation : String
  deriving DecidableEq, Repr

/-- `QUIZ_DATA` from `src/app.py` (lines 77-209). -/
def appQUIZ_DATA : List QuizItem := [
  { title := "Prompt Chaining", correct := "Workflow",
    explanation := "This follows a predefined sequence of steps with programmatic gates. The control flow is fixed by the code." },
  { title := "Tool-Calling Agent", correct := "Agent",
    explanation := "The LLM controls its own execution flow based on environmental feedback. It decides when to use tools and when to stop." },
  { title := "Routing", correct := "Workflow",
    explanation := "Despite using an LLM for classification, this follows predefined routing logic. The control flow is determined by code structure." },
  { title := "Parallelization", correct := "Workflow",
    explanation := "Multiple predefined tasks execute in parallel. The structure and sequence are fixed by the programmer." },
  { title := "Orchestrator-Worker", correct := "Workflow",
    explanation := "Despite dynamic planning, this follows a fixed pattern: Plan, Execute, Synthesize. The LLM fills parameters within predetermined control structures." },
  { title := "Research Agent", correct := "Agent",
    explanation := "The LLM controls its own execution flow, deciding what to research next based on accumulated context and environmental feedback." },
  { title := "Evaluator-Optimizer", correct := "Workflow",
    explanation := "This follows a structured feedback loop with predefined evaluation criteria. The control flow is managed by the code structure." }
]

/-- One entry of the dashboard's duplicated `QUIZ_DATA` in `src/visualize.py`. -/
structure VizItem where
  title : String
  correct : String
  deriving DecidableEq, Repr

/-- `QUIZ_DATA` from `src/visualize.py` (lines 16-24). -/
def vizQUIZ_DATA : List VizItem := [
  { title := "Prompt Chaining", correct := "Workflow" },
  { title := "Tool-Calling Agent", correct := "Agent" },
  { title := "Routing", correct := "Workflow" },
  { title := "Parallelization", correct := "Workflow" },
  { title := "Orchestrator-Worker", correct := "Workflow" },
  { title := "Research Agent", correct := "Agent" },
  { title := "Evaluator-Optimizer", correct := "Workflow" }
]

/-- One vote record as read back from the sheet by `get_stats` in
`src/app.py` and by the dashboard: `Question Number` is coerced to an
integer (`int(...)` / `pd.to_numeric`). -/
structure VoteRow where
  session_id : Nat
  question_num : Int
  user_vote : String
  correct_answer : String
  timestamp : Nat
  deriving DecidableEq, Repr

/-- Python list indexing `xs[i]` on an `int` index: negative indices count
from the end, and an index out of range raises `IndexError` (here `none`). -/
def pyGet (xs : List α) (i : Int) : Option α :=
  if 0 ≤ i then xs.get? i.toNat
  else if 0 ≤ i + xs.length then xs.get? (i + xs.length).toNat
  else none

/-- The per-row body of `src/visualize.py` line 112:
`row['User Vote'] == QUIZ_DATA[row['Question Number']]['correct']`.
A live lookup into the dashboard's `QUIZ_DATA`; an out-of-range
`Question Number` raises `IndexError`. -/
def is_correct_row (r : VoteRow) : Except String Bool :=
  match pyGet vizQUIZ_DATA r.question_num with
  | some q => Except.ok (r.user_vote == q.correct)
  | none => Except.error "IndexError"

/-- `df.apply(..., axis=1)` building the `Is Correct` column
(`src/visualize.py` line 112): one raising row fails the whole column. -/
def is_correct_column (rows : List VoteRow) : Except String (List Bool) :=
  rows.mapM is_correct_row

/-- Follows the spec's words (for comparison with `is_correct_row`):
"percentage of records per question where `userVote == correctLabel`
(using the record's own denormalized `correctLabel`, not a live
re-lookup)" — the per-record agreement test against the denormalized
label stored in the record itself. -/
def agreement_denormalized (r : VoteRow) : Bool :=
  r.user_vote == r.correct_answer

/-- One user session held in `st.session_state` (`src/app.py` 212-221). -/
structure SessionState where
  quiz_started : Bool
  current_question : Nat
  user_answers : List String
  quiz_completed : Bool
  session_id : Nat
  deriving DecidableEq, Repr

/-- The argument tuple handed to the background save thread
(`src/app.py` 347-357); one element per spawned `save_vote_threaded`. -/
structure AppendAttempt where
  question_num : Nat
  user_vote : String
  correct_answer : String
  session_id : Nat
  deriving DecidableEq, Repr

/-- Values computed during one render of the in-progress quiz page and
captured by the `handle_vote` closure (`src/app.py` 326-340):
`current_q`, `question_data['correct']`, and the `already_answered` flag
`len(st.session_state.user_answers) > current_q`. -/
structure RenderCtx where
  current_q : Nat
  correct_label : String
  already_answered : Bool
  deriving DecidableEq, Repr

/-- One render of the in-progress page from the live session state. -/
def render (s : SessionState) : RenderCtx :=
  { current_q := s.current_question,
    correct_label := ((appQUIZ_DATA.get? s.current_question).map QuizItem.correct).getD "",
    already_answered := decide (s.user_answers.length > s.current_question) }

/-- `advance_question` (`src/app.py` 383-388): advance the index while
below the last question, otherwise set the completed flag. -/
def advance_question (s : SessionState) : SessionState :=
  if s.current_question < appQUIZ_DATA.length - 1 then
    { s with current_question := s.current_question + 1 }
  else
    { s with quiz_completed := true }

/-- `handle_vote` (`src/app.py` 342-359): guarded by the render-captured
`already_answered` flag; on acceptance appends the vote, spawns one
background save (returned as an `AppendAttempt`), and advances. -/
def handle_vote (ctx : RenderCtx) (vote : String) (s : SessionState) :
    SessionState × List AppendAttempt :=
  if ctx.already_answered = false then
    let s1 := { s with user_answers := s.user_answers ++ [vote] }
    let att : AppendAttempt :=
      { question_num := ctx.current_q, user_vote := vote,
        correct_answer := ctx.correct_label, session_id := s.session_id }
    (advance_question s1, [att])
  else (s, [])

/-- The row written by `save_vote_threaded` (`src/app.py` 247-254). -/
def attempt_to_row (att : AppendAttempt) (ts : Nat) : VoteRow :=
  { session_id := att.session_id, question_num := (att.question_num : Int),
    user_vote := att.user_vote, correct_answer := att.correct_answer,
    timestamp := ts }

/-- Outcome of one background save: either the row was appended, or the
exception was caught and printed to the console (`src/app.py` 255-257). -/
inductive SaveReport where
  | saved
  | logged (msg : String)
  deriving DecidableEq, Repr

/-- `save_vote_threaded` (`src/app.py` 229-257): the whole body is wrapped
in try/except, so a failing network interaction (`net`) is caught and turned
into a console log line; nothing propagates to the caller. -/
def save_vote_threaded (att : AppendAttempt) (net : Except String Unit) :
    SaveReport :=
  match att, net with
  | _, Except.ok _ => SaveReport.saved
  | _, Except.error e =>
      SaveReport.logged ("Error saving vote in background thread: " ++ e)

/-- One accepted-or-rejected submission together with its fire-and-forget
saves, under a given network outcome `net` for the background append. -/
def submit_with_network (s : SessionState) (v : String)
    (net : Except String Unit) : SessionState × List SaveReport :=
  let p := handle_vote (render s) v s
  (p.1, p.2.map (fun att => save_vote_threaded att net))

/-- Whole-application state: the session, the (successfully written) vote
log, and the fresh-identifier supply modelling `uuid.uuid4()`. -/
structure AppState where
  session : SessionState
  votesLog : List VoteRow
  nextFresh : Nat
  usedIds : List Nat
  deriving DecidableEq, Repr

/-- The three user interactions the rendered pages offer. -/
inductive Event where
  | start
  | vote (v : String)
  | restartClick
  deriving DecidableEq, Repr

/-- The body of the "Take Quiz Again" button (`src/app.py` 482-489): reset
every session field and draw a fresh `session_id`; the vote log is not
touched. -/
def resetState (a : AppState) : AppState :=
  { a with
    session := { quiz_started := false, current_question := 0,
                 user_answers := [], quiz_completed := false,
                 session_id := a.nextFresh },
    nextFresh := a.nextFresh + 1,
    usedIds := a.usedIds ++ [a.nextFresh] }

/-- One step of the application: `main`'s page gating (`src/app.py`
298-381) determines which interaction is available, and each interaction
runs the corresponding handler against the current state. -/
def appStep (a : AppState) (e : Event) : AppState :=
  match e with
  | Event.start =>
      if a.session.quiz_started = false then
        { a with session := { a.session with quiz_started := true } }
      else a
  | Event.vote v =>
      if a.session.quiz_started = true ∧ a.session.quiz_completed = false then
        let p := handle_vote (render a.session) v a.session
        { a with session := p.1,
                 votesLog := a.votesLog ++ p.2.map (fun att => attempt_to_row att 0) }
      else a
  | Event.restartClick =>
      if a.session.quiz_completed = true then resetState a else a

/-- Initial application state (`src/app.py` 212-221): session fields at
their defaults and the first `uuid.uuid4()` drawn as `session_id`. -/
def initState : AppState :=
  { session := { quiz_started := false, current_question := 0,
                 user_answers := [], quiz_completed := false, session_id := 0 },
    votesLog := [], nextFresh := 1, usedIds := [0] }

/-- States reachable from the initial state by user interactions. -/
inductive Reachable : AppState → Prop where
  | init : Reachable initState
  | step (a : AppState) (e : Event) : Reachable a → Reachable (appStep a e)

/-- Score loop of `show_final_results` (`src/app.py` 398-404): count the
indices below `min(len(user_answers), len(QUIZ_DATA))` whose answer equals
the question's correct label. -/
def correct_count (answers : List String) (quiz : List QuizItem) : Nat :=
  ((List.range (min answers.length quiz.length)).filter
    (fun i => (answers.get? i).getD "" == ((quiz.get? i).map QuizItem.correct).getD "")).length

/-- `score_pct = (correct_count / len(QUIZ_DATA)) * 100`
(`src/app.py` 406), float arithmetic modelled with `Rat`. -/
def score_pct (answers : List String) (quiz : List QuizItem) : Rat :=
  ((correct_count answers quiz : Rat) / (quiz.length : Rat)) * 100

/-- Follows the spec's words (for comparison with `correct_count`):
"score = count(answers[k] == Question[k].correctLabel for k in
0..len(answers)-1)". -/
def spec_score (answers : List String) (quiz : List QuizItem) : Nat :=
  ((List.range answers.length).filter
    (fun i => (answers.get? i).getD "" == ((quiz.get? i).map QuizItem.correct).getD "")).length

/-- `question_votes` (`src/app.py` 423): the records for one question id,
with the source's redundant guard on an empty stats list kept. -/
def question_votes (stats : List VoteRow) (i : Int) : List VoteRow :=
  if stats = [] then [] else stats.filter (fun v => v.question_num == i)

/-- `agent_votes` (`src/app.py` 427). -/
def agent_votes (stats : List VoteRow) (i : Int) : Nat :=
  ((question_votes stats i).filter (fun v => v.user_vote == "Agent")).length

/-- Per-question community stats shown in `show_final_results`. -/
structure QStats where
  total_votes : Nat
  agent_pct : Rat
  workflow_pct : Rat
  deriving DecidableEq, Repr

/-- Per-question aggregation of `show_final_results` (`src/app.py`
422-431): percentages are computed only under the `total_votes > 0`
guard, else both are set to 0. -/
def per_question (stats : List VoteRow) (i : Int) : QStats :=
  if 0 < (question_votes stats i).length then
    { total_votes := (question_votes stats i).length,
      agent_pct := ((agent_votes stats i : Rat)
          / ((question_votes stats i).length : Rat)) * 100,
      workflow_pct := 100 - ((agent_votes stats i : Rat)
          / ((question_votes stats i).length : Rat)) * 100 }
  else
    { total_votes := (question_votes stats i).length,
      agent_pct := 0, workflow_pct := 0 }

/-- The fixed header row (`src/app.py` 224). -/
def HEADERS : List String :=
  ["Session ID", "Question Number", "User Vote", "Correct Answer", "Timestamp"]

/-- A worksheet is its list of rows; `worksheet.row_values(1)` returns the
first row's values, `[]` when the sheet is empty. -/
def row_values (ws : List (List String)) : List String :=
  (ws.get? 0).getD []

/-- `ensure_headers` (`src/app.py` 223-227): insert the header at row 1
whenever the first row differs from it. -/
def ensure_headers (ws : List (List String)) : List (List String) :=
  if row_values ws ≠ HEADERS then HEADERS :: ws else ws

/-- The header check inside `save_vote_threaded` (`src/app.py` 243-245):
`if not worksheet.row_values(1)` — the header is inserted only when the
first row is empty. -/
def thread_header_check (ws : List (List String)) : List (List String) :=
  if row_values ws = [] then HEADERS :: ws else ws

/-- `worksheet.append_row` (`src/app.py` 254). -/
def append_row (ws : List (List String)) (row : List String) :
    List (List String) :=
  ws ++ [row]

/-- The sheet-level effect of one successful `save_vote_threaded`: the
thread-side header check followed by the row append. -/
def save_vote_row (ws : List (List String)) (row : List String) :
    List (List String) :=
  append_row (thread_header_check ws) row

/-! ## Concrete inputs used by counterexamples and witnesses -/

/-- A full run: start, then one accepted answer per question. -/
def c1_events : List Event :=
  [Event.start, Event.vote "Agent", Event.vote "Workflow", Event.vote "Agent",
   Event.vote "Workflow", Event.vote "Agent", Event.vote "Workflow",
   Event.vote "Agent"]

/-- The application state after a full run of the quiz. -/
def c1_final : AppState := c1_events.foldl appStep initState

/-- A session at question 0 with no answer recorded yet. -/
def c2_s0 : SessionState :=
  { quiz_started := true, current_question := 0, user_answers := [],
    quiz_completed := false, session_id := 0 }

/-- The render context captured for `c2_s0` (its `already_answered` flag is
false), shared by both invocations of a double-click. -/
def c2_ctx : RenderCtx := render c2_s0

/-- First invocation of the double-click. -/
def c2_once : SessionState × List AppendAttempt :=
  handle_vote c2_ctx "Agent" c2_s0

/-- Second invocation of the double-click, still using the captured
context `c2_ctx`. -/
def c2_twice : SessionState × List AppendAttempt :=
  handle_vote c2_ctx "Agent" c2_once.1

/-- A well-formed historical record for question 0. -/
def c3_good_row : VoteRow :=
  { session_id := 1, question_num := 0, user_vote := "Workflow",
    correct_answer := "Workflow", timestamp := 0 }

/-- A malformed historical record: its question id 7 is outside `[0, 7)`. -/
def c3_bad_row : VoteRow :=
  { session_id := 2, question_num := 7, user_vote := "Agent",
    correct_answer := "Agent", timestamp := 0 }

/-- A record whose denormalized correct label ("Agent") disagrees with the
current definition of question 0 (correct label "Workflow"). -/
def c4_record : VoteRow :=
  { session_id := 3, question_num := 0, user_vote := "Agent",
    correct_answer := "Agent", timestamp := 0 }

/-- A record for question 1 whose denormalized label agrees with the
current definition. -/
def c4_record2 : VoteRow :=
  { session_id := 4, question_num := 1, user_vote := "Agent",
    correct_answer := "Agent", timestamp := 0 }

/-- A session at question 0 awaiting its first answer. -/
def c5_s : SessionState :=
  { quiz_started := true, current_question := 0, user_answers := [],
    quiz_completed := false, session_id := 5 }

/-- One historical record used to exercise the per-question aggregation. -/
def c7_row : VoteRow :=
  { session_id := 9, question_num := 0, user_vote := "Agent",
    correct_answer := "Agent", timestamp := 0 }

/-- A worksheet whose first row is non-empty but is not the header row. -/
def c9_tampered : List (List String) := [["junk"]]

/-- One data row in sheet format. -/
def c9_row : List String :=
  ["s1", "0", "Agent", "Workflow", "2025-01-01T00:00:00"]

/-! ## Helper lemmas -/

theorem appQUIZ_len : appQUIZ_DATA.length = 7 := rfl

theorem advance_keeps_answers (s : SessionState) :
    (advance_question s).user_answers = s.user_answers := by
  unfold advance_question
  split <;> rfl

theorem advance_keeps_started (s : SessionState) :
    (advance_question s).quiz_started = s.quiz_started := by
  unfold advance_question
  split <;> rfl

theorem advance_keeps_id (s : SessionState) :
    (advance_question s).session_id = s.session_id := by
  unfold advance_question
  split <;> rfl

/-- The inductive invariant of the application state: phase-indexed
bookkeeping of the session fields plus freshness bookkeeping of the
identifier supply. -/
def sessionInv (a : AppState) : Prop :=
  (a.session.quiz_started = false →
     a.session.user_answers = [] ∧ a.session.current_question = 0
       ∧ a.session.quiz_completed = false)
  ∧ (a.session.quiz_started = true → a.session.quiz_completed = false →
     a.session.user_answers.length = a.session.current_question)
  ∧ a.session.current_question < appQUIZ_DATA.length
  ∧ (a.session.quiz_completed = true →
     a.session.user_answers.length = appQUIZ_DATA.length
       ∧ a.session.current_question = appQUIZ_DATA.length - 1
       ∧ a.session.quiz_started = true)
  ∧ (∀ id ∈ a.usedIds, id < a.nextFresh)

theorem inv_init : sessionInv initState := by
  refine ⟨?_, ?_, ?_, ?_, ?_⟩ <;> simp [initState, sessionInv, appQUIZ_len]

theorem render_not_answered (s : SessionState)
    (h : s.user_answers.length ≤ s.current_question) :
    (render s).already_answered = false := by
  simp only [render, decide_eq_false_iff_not]
  omega

theorem handle_vote_accepts (ctx : RenderCtx) (v : String) (s : SessionState)
    (h : ctx.already_answered = false) :
    handle_vote ctx v s =
      (advance_question { s with user_answers := s.user_answers ++ [v] },
       [{ question_num := ctx.current_q, user_vote := v,
          correct_answer := ctx.correct_label, session_id := s.session_id }]) := by
  simp [handle_vote, h]

theorem handle_vote_rejects (ctx : RenderCtx) (v : String) (s : SessionState)
    (h : ctx.already_answered = true) :
    handle_vote ctx v s = (s, []) := by
  simp [handle_vote, h]

theorem advance_question_of_lt (s : SessionState)
    (h : s.current_question < appQUIZ_DATA.length - 1) :
    advance_question s = { s with current_question := s.current_question + 1 } := by
  simp [advance_question, h]

theorem advance_question_of_ge (s : SessionState)
    (h : ¬ s.current_question < appQUIZ_DATA.length - 1) :
    advance_question s = { s with quiz_completed := true } := by
  simp [advance_question, h]

theorem inv_step (a : AppState) (e : Event) (h : sessionInv a) :
    sessionInv (appStep a e) := by
  obtain ⟨h0, h1, h2, h3, h4⟩ := h
  cases e with
  | start =>
    simp only [appStep]
    split
    · next hs =>
      obtain ⟨ha, hc, hq⟩ := h0 hs
      exact ⟨by intro hcontra; simp at hcontra,
             by intro _ _; simp [ha, hc],
             h2,
             by intro hcc; simp [hq] at hcc,
             h4⟩
    · exact ⟨h0, h1, h2, h3, h4⟩
  | vote v =>
    simp only [appStep]
    split
    · next hg =>
      obtain ⟨hs, hc⟩ := hg
      have hlen := h1 hs hc
      have hflag : (render a.session).already_answered = false :=
        render_not_answered _ (le_of_eq hlen)
      rw [handle_vote_accepts _ _ _ hflag]
      by_cases hlt : a.session.current_question < appQUIZ_DATA.length - 1
      · rw [advance_question_of_lt _ (by simpa using hlt)]
        refine ⟨?_, ?_, ?_, ?_, h4⟩
        · intro hcontra; rw [hs] at hcontra; simp at hcontra
        · intro _ _
          simp only [List.length_append, List.length_singleton, hlen]
        · simp only [appQUIZ_len] at hlt ⊢
          omega
        · intro hcc; rw [hc] at hcc; simp at hcc
      · rw [advance_question_of_ge _ (by simpa using hlt)]
        refine ⟨?_, ?_, ?_, ?_, h4⟩
        · intro hcontra; rw [hs] at hcontra; simp at hcontra
        · intro _ hcontra; simp at hcontra
        · exact h2
        · intro _
          refine ⟨?_, ?_, hs⟩
          · simp only [List.length_append, List.length_singleton, hlen]
            simp only [appQUIZ_len] at hlt h2 ⊢
            omega
          · simp only [appQUIZ_len] at hlt h2 ⊢
            omega
    · exact ⟨h0, h1, h2, h3, h4⟩
  | restartClick =>
    simp only [appStep]
    split
    · refine ⟨?_, ?_, ?_, ?_, ?_⟩
      · intro _; exact ⟨rfl, rfl, rfl⟩
      · intro hcontra; simp [resetState] at hcontra
      · simp [resetState, appQUIZ_len]
      · intro hcontra; simp [resetState] at hcontra
      · intro id hid
        simp only [resetState, List.mem_append, List.mem_singleton] at hid
        rcases hid with hid | hid
        · have := h4 id hid; simp only [resetState]; omega
        · simp only [resetState, hid]; omega
    · exact ⟨h0, h1, h2, h3, h4⟩

theorem inv_reachable (a : AppState) (h : Reachable a) : sessionInv a := by
  induction h with
  | init => exact inv_init
  | step b e _ ih => exact inv_step b e ih

theorem reachable_foldl (es : List Event) (a : AppState) (h : Reachable a) :
    Reachable (es.foldl appStep a) := by
  induction es generalizing a with
  | nil => exact h
  | cons e es ih => exact ih (appStep a e) (Reachable.step a e h)

/-! ## Claim theorems -/

/-- C10: the question metadata duplicated in the dashboard equals the quiz
app's question sequence — both have length 7 and, at every index, equal
titles and equal correct labels. -/
theorem c10_quiz_data_consistent :
    vizQUIZ_DATA.length = appQUIZ_DATA.length
    ∧ vizQUIZ_DATA.map (fun q => (q.title, q.correct))
        = appQUIZ_DATA.map (fun q => (q.title, q.correct)) := by
  exact ⟨rfl, rfl⟩

/-- C3 (code bug): the dashboard's agreement computation is not defensive:
a single record whose question id is outside `[0, 7)` raises `IndexError`,
and this failure is fatal to the whole aggregation — the well-formed record
in the same collection is not aggregated either, although that record alone
aggregates fine. -/
theorem c3_malformed_record_fatal :
    is_correct_column [c3_good_row] = Except.ok [true]
    ∧ is_correct_row c3_bad_row = Except.error "IndexError"
    ∧ is_correct_column [c3_good_row, c3_bad_row]
        = Except.error "IndexError" := by
  exact ⟨rfl, rfl, rfl⟩

/-- C4 counterexample: on a record whose denormalized correct label
disagrees with the current question definition, the dashboard computes
agreement as false (live re-lookup), while the record's own denormalized
label would give true — so the computation is not the denormalized one. -/
theorem c4_counterexample :
    agreement_denormalized c4_record = true
    ∧ is_correct_row c4_record = Except.ok false
    ∧ is_correct_row c4_record ≠ Except.ok (agreement_denormalized c4_record) := by
  refine ⟨rfl, rfl, ?_⟩
  show Except.ok false ≠ Except.ok true
  simp

/-- C4 (amended): per-question agreement is computed against the correct
label of the current `QUIZ_DATA` definition, obtained by a live lookup on
the record's question id; it coincides with the record's own denormalized
correct label exactly when that stored label equals the current
definition's label. -/
theorem c4_live_lookup (r : VoteRow) (q : VizItem)
    (h : pyGet vizQUIZ_DATA r.question_num = some q) :
    is_correct_row r = Except.ok (r.user_vote == q.correct)
    ∧ (r.correct_answer = q.correct →
        is_correct_row r = Except.ok (agreement_denormalized r)) := by
  constructor
  · simp [is_correct_row, h]
  · intro hc
    simp [is_correct_row, h, agreement_denormalized, hc]

/-- C4 witness: the amended theorem applied to a concrete in-range record. -/
theorem c4_live_lookup_witness :
    is_correct_row c4_record2 = Except.ok true := by
  have h := c4_live_lookup c4_record2
    { title := "Tool-Calling Agent", correct := "Agent" } rfl
  simpa using h.1

/-- C9 counterexample: with a worksheet whose first row is non-empty but
not the header, the append path's check does not create the header — the
row is appended while the first row is still not the header row. -/
theorem c9_counterexample :
    save_vote_row c9_tampered c9_row = [["junk"], c9_row]
    ∧ row_values (save_vote_row c9_tampered c9_row) ≠ HEADERS := by
  refine ⟨rfl, ?_⟩
  show (["junk"] : List String) ≠ HEADERS
  decide

/-- C9 (amended): the append path inserts the header only when the
worksheet's first row is empty (in that case the appended data lands under
a correct header), and it never inserts a duplicate header when the first
row already is the header; the full normalization — first row equal to the
five fixed column names, inserting it whenever it differs — is performed by
`ensure_headers` on the stats-read path, not before appends. -/
theorem c9_header_handling :
    (∀ (ws : List (List String)) (r : List String),
        row_values ws = [] → row_values (save_vote_row ws r) = HEADERS)
    ∧ (∀ ws : List (List String), row_values ws = HEADERS →
        thread_header_check ws = ws ∧ ensure_headers ws = ws)
    ∧ (∀ ws : List (List String), row_values (ensure_headers ws) = HEADERS) := by
  refine ⟨?_, ?_, ?_⟩
  · intro ws r h
    simp only [save_vote_row, thread_header_check, h, if_pos]
    cases ws <;> rfl
  · intro ws h
    constructor
    · have : ¬ row_values ws = [] := by
        rw [h]; intro hc; simp [HEADERS] at hc
      simp [thread_header_check, this]
    · simp [ensure_headers, h]
  · intro ws
    by_cases h : row_values ws = HEADERS
    · simp [ensure_headers, h]
    · simp only [ensure_headers, if_pos (by exact h)]
      rfl

/-- C9 witness: the amended theorem applied to the empty worksheet and to
a worksheet that already carries the header. -/
theorem c9_header_handling_witness :
    row_values (save_vote_row [] c9_row) = HEADERS
    ∧ ensure_headers [HEADERS] = [HEADERS] := by
  exact ⟨c9_header_handling.1 [] c9_row rfl,
         (c9_header_handling.2.1 [HEADERS] rfl).2⟩

/-- C6: the session score is the count of indices `k` below the number of
recorded answers at which `answers[k]` equals `Question[k].correctLabel`
(for sessions, which never hold more answers than there are questions),
and the percentage is `100 * score / N`; in particular, on the 2-question
sequence with correct labels Workflow then Agent, the answers
`[Workflow, Workflow]` score 1 of 2, i.e. 50%. -/
theorem c6_score_correct :
    (∀ (answers : List String) (quiz : List QuizItem),
        answers.length ≤ quiz.length →
          correct_count answers quiz = spec_score answers quiz
          ∧ score_pct answers quiz
              = ((spec_score answers quiz : Rat) / (quiz.length : Rat)) * 100)
    ∧ correct_count ["Workflow", "Workflow"] (appQUIZ_DATA.take 2) = 1
    ∧ score_pct ["Workflow", "Workflow"] (appQUIZ_DATA.take 2) = 50 := by
  have h1 : correct_count ["Workflow", "Workflow"] (appQUIZ_DATA.take 2) = 1 := by
    decide
  have h2 : (appQUIZ_DATA.take 2).length = 2 := by decide
  refine ⟨?_, h1, ?_⟩
  case refine_2 =>
    unfold score_pct
    rw [h1, h2]
    norm_num
  intro answers quiz h
  have hm : min answers.length quiz.length = answers.length :=
    Nat.min_eq_left h
  constructor
  · simp [correct_count, spec_score, hm]
  · simp [score_pct, correct_count, spec_score, hm]

/-- C6 witness: the general part applied to a concrete session over the
full question list. -/
theorem c6_score_correct_witness :
    correct_count ["Agent"] appQUIZ_DATA = spec_score ["Agent"] appQUIZ_DATA := by
  exact (c6_score_correct.1 ["Agent"] appQUIZ_DATA (by decide)).1

theorem per_question_total (stats : List VoteRow) (i : Int) :
    (per_question stats i).total_votes = (question_votes stats i).length := by
  unfold per_question
  split <;> rfl

theorem per_question_of_pos (stats : List VoteRow) (i : Int)
    (h : 0 < (question_votes stats i).length) :
    per_question stats i =
      { total_votes := (question_votes stats i).length,
        agent_pct := ((agent_votes stats i : Rat)
            / ((question_votes stats i).length : Rat)) * 100,
        workflow_pct := 100 - ((agent_votes stats i : Rat)
            / ((question_votes stats i).length : Rat)) * 100 } := by
  unfold per_question
  simp only [if_pos h]

theorem per_question_of_zero (stats : List VoteRow) (i : Int)
    (h : ¬ 0 < (question_votes stats i).length) :
    per_question stats i =
      { total_votes := (question_votes stats i).length,
        agent_pct := 0, workflow_pct := 0 } := by
  unfold per_question
  simp only [if_neg h]

/-- C7: the per-question aggregation is zero-safe: on the empty record
collection every question has no matching votes and stats
`total_votes = 0` with both percentages 0 (the division branch is never
taken); in general the percentage 0 is returned whenever `total_votes = 0`,
and `agent_pct = 100 * agentVotes / totalVotes` is computed only under the
`0 < totalVotes` guard. -/
theorem c7_zero_safe :
    (∀ i : Int, question_votes [] i = [])
    ∧ (∀ i : Int, per_question [] i
        = { total_votes := 0, agent_pct := 0, workflow_pct := 0 })
    ∧ (∀ (stats : List VoteRow) (i : Int),
        (per_question stats i).total_votes = 0 →
          (per_question stats i).agent_pct = 0
          ∧ (per_question stats i).workflow_pct = 0)
    ∧ (∀ (stats : List VoteRow) (i : Int),
        0 < (question_votes stats i).length →
          (per_question stats i).agent_pct
            = ((agent_votes stats i : Rat)
                / ((question_votes stats i).length : Rat)) * 100) := by
  refine ⟨?_, ?_, ?_, ?_⟩
  · intro i; rfl
  · intro i
    rw [per_question_of_zero [] i (by simp [question_votes])]
    simp [question_votes]
  · intro stats i h
    rw [per_question_total] at h
    rw [per_question_of_zero stats i (by omega)]
    exact ⟨rfl, rfl⟩
  · intro stats i h
    rw [per_question_of_pos stats i h]

/-- C7 witness: zero-total and positive-total cases of the aggregation at
concrete inputs. -/
theorem c7_zero_safe_witness :
    (per_question [] 0).agent_pct = 0
    ∧ (per_question [c7_row] 0).agent_pct
        = ((agent_votes [c7_row] 0 : Rat)
            / ((question_votes [c7_row] 0).length : Rat)) * 100 := by
  exact ⟨(c7_zero_safe.2.2.1 [] 0 rfl).1,
         c7_zero_safe.2.2.2 [c7_row] 0 (by decide)⟩

/-- C1 (amended): in every reachable application state, while the quiz is
in progress the number of recorded answers equals the current question
index; the session is in the Completed phase iff the number of recorded
answers equals the number of questions N; the current question index is
always strictly below N (in particular it does not equal N when
Completed — it stays at N-1); an accepted answer on a non-final question
advances the index by exactly 1, while an accepted answer on the final
question leaves the index unchanged and sets the Completed phase. -/
theorem c1_progress_invariant (a : AppState) (h : Reachable a) :
    (a.session.quiz_started = true → a.session.quiz_completed = false →
       a.session.user_answers.length = a.session.current_question)
    ∧ (a.session.quiz_completed = true ↔
       a.session.user_answers.length = appQUIZ_DATA.length)
    ∧ a.session.current_question < appQUIZ_DATA.length
    ∧ (∀ v, a.session.quiz_started = true → a.session.quiz_completed = false →
        ((a.session.current_question < appQUIZ_DATA.length - 1 →
           (appStep a (Event.vote v)).session.current_question
               = a.session.current_question + 1
             ∧ (appStep a (Event.vote v)).session.quiz_completed = false)
         ∧ (a.session.current_question = appQUIZ_DATA.length - 1 →
           (appStep a (Event.vote v)).session.quiz_completed = true
             ∧ (appStep a (Event.vote v)).session.current_question
                 = a.session.current_question))) := by
  obtain ⟨h0, h1, h2, h3, h4⟩ := inv_reachable a h
  refine ⟨h1, ?_, h2, ?_⟩
  · constructor
    · intro hc; exact (h3 hc).1
    · intro hlen
      by_cases hc : a.session.quiz_completed = true
      · exact hc
      · exfalso
        have hc' : a.session.quiz_completed = false := by
          cases hh : a.session.quiz_completed
          · rfl
          · exact absurd hh hc
        by_cases hs : a.session.quiz_started = true
        · have := h1 hs hc'
          simp only [appQUIZ_len] at hlen h2
          omega
        · have hs' : a.session.quiz_started = false := by
            cases hh : a.session.quiz_started
            · rfl
            · exact absurd hh hs
          have := (h0 hs').1
          rw [this] at hlen
          simp [appQUIZ_len] at hlen
  · intro v hs hc
    have hlen := h1 hs hc
    have hflag : (render a.session).already_answered = false :=
      render_not_answered _ (le_of_eq hlen)
    have hstep : (appStep a (Event.vote v)).session =
        advance_question
          { a.session with user_answers := a.session.user_answers ++ [v] } := by
      simp only [appStep, if_pos (And.intro hs hc),
        handle_vote_accepts _ _ _ hflag]
    constructor
    · intro hlt
      rw [hstep, advance_question_of_lt _ (by simpa using hlt)]
      exact ⟨rfl, hc⟩
    · intro hlast
      rw [hstep, advance_question_of_ge _ (by simp; omega)]
      exact ⟨rfl, rfl⟩

/-- C1 counterexample: the state reached after starting the quiz and
answering all 7 questions is in the Completed phase, yet its current
question index is 6, not N = 7 — refuting "the current question index
equals N iff the session is Completed". -/
theorem c1_counterexample :
    Reachable c1_final
    ∧ c1_final.session.quiz_completed = true
    ∧ c1_final.session.current_question ≠ appQUIZ_DATA.length
    ∧ c1_final.session.current_question = appQUIZ_DATA.length - 1
    ∧ c1_final.session.user_answers.length = appQUIZ_DATA.length := by
  exact ⟨reachable_foldl c1_events initState Reachable.init,
         by decide, by decide, by decide, by decide⟩

/-- C1 witness: the amended invariant applied to the concrete completed
state of a full run. -/
theorem c1_progress_invariant_witness :
    (c1_final.session.quiz_completed = true ↔
       c1_final.session.user_answers.length = appQUIZ_DATA.length)
    ∧ c1_final.session.current_question < appQUIZ_DATA.length := by
  have hr : Reachable c1_final :=
    reachable_foldl c1_events initState Reachable.init
  have h := c1_progress_invariant c1_final hr
  exact ⟨h.2.1, h.2.2.1⟩

/-- C2 counterexample: the double-click guard is the `already_answered`
flag computed once per render and captured by the `handle_vote` closure;
two submissions for question 0 in immediate succession — both using the
flag captured before the first (a double-click before any re-render) —
both pass the guard: two entries are appended, two VoteStore append
attempts are spawned, and the second submission changes state instead of
being ignored. -/
theorem c2_counterexample :
    c2_twice.1.user_answers = ["Agent", "Agent"]
    ∧ c2_once.2.length + c2_twice.2.length = 2
    ∧ c2_twice.1 ≠ c2_once.1 := by
  refine ⟨by decide, by decide, by decide⟩

/-- C2 (amended): the idempotency guard keys on the render-captured
`already_answered` flag: a submission whose captured flag is true is
rejected with state unchanged and no append attempt; but two submissions
sharing a flag captured before the first (a double-click within one
render) each append an entry and each spawn one VoteStore append attempt,
so the duplicate is suppressed only when a re-render recomputes the flag
between the two submissions. -/
theorem c2_guard_behaviour :
    (∀ (ctx : RenderCtx) (v : String) (s : SessionState),
        ctx.already_answered = true → handle_vote ctx v s = (s, []))
    ∧ (∀ (ctx : RenderCtx) (v1 v2 : String) (s : SessionState),
        ctx.already_answered = false →
          (handle_vote ctx v2 (handle_vote ctx v1 s).1).1.user_answers
              = s.user_answers ++ [v1, v2]
          ∧ (handle_vote ctx v1 s).2.length = 1
          ∧ (handle_vote ctx v2 (handle_vote ctx v1 s).1).2.length = 1) := by
  constructor
  · intro ctx v s h
    exact handle_vote_rejects ctx v s h
  · intro ctx v1 v2 s h
    rw [handle_vote_accepts _ _ _ h]
    rw [handle_vote_accepts _ _ _ h]
    refine ⟨?_, rfl, rfl⟩
    rw [advance_keeps_answers, advance_keeps_answers]
    simp

/-- C2 witness: the amended theorem applied at concrete inputs — a
rejected submission under a true captured flag, and a double submission
under a shared false captured flag. -/
theorem c2_guard_behaviour_witness :
    handle_vote { current_q := 0, correct_label := "Workflow",
                  already_answered := true } "Agent" c2_s0 = (c2_s0, [])
    ∧ (handle_vote c2_ctx "Workflow"
          (handle_vote c2_ctx "Agent" c2_s0).1).1.user_answers
        = ["Agent", "Workflow"] := by
  constructor
  · exact c2_guard_behaviour.1 _ "Agent" c2_s0 rfl
  · have h := (c2_guard_behaviour.2 c2_ctx "Agent" "Workflow" c2_s0
      (by decide)).1
    simpa using h

/-- C5: a failing VoteStore append is invisible to the session: for every
accepted submission, the resulting session state is the same under any
network outcome of the background save; the answer is recorded and the
phase advances (next question or Completed) without waiting on the save;
the failure is caught inside `save_vote_threaded` and surfaces only as a
console log entry, never as an exception. -/
theorem c5_save_failure_isolated (s : SessionState) (v e : String)
    (h : s.user_answers.length ≤ s.current_question) :
    (∀ net net' : Except String Unit,
       (submit_with_network s v net).1 = (submit_with_network s v net').1)
    ∧ (submit_with_network s v (Except.error e)).1.user_answers
        = s.user_answers ++ [v]
    ∧ ((submit_with_network s v (Except.error e)).1.current_question
          = s.current_question + 1
        ∨ (submit_with_network s v (Except.error e)).1.quiz_completed = true)
    ∧ (submit_with_network s v (Except.error e)).2
        = [SaveReport.logged ("Error saving vote in background thread: " ++ e)] := by
  have hflag : (render s).already_answered = false := render_not_answered s h
  refine ⟨?_, ?_, ?_, ?_⟩
  · intro net net'
    rfl
  · simp only [submit_with_network, handle_vote_accepts _ _ _ hflag]
    rw [advance_keeps_answers]
  · simp only [submit_with_network, handle_vote_accepts _ _ _ hflag]
    by_cases hlt : s.current_question < appQUIZ_DATA.length - 1
    · left
      rw [advance_question_of_lt _ (by simpa using hlt)]
    · right
      rw [advance_question_of_ge _ (by simpa using hlt)]
  · simp only [submit_with_network, handle_vote_accepts _ _ _ hflag]
    rfl

/-- C5 witness: the theorem applied to a concrete session and a concrete
simulated network error. -/
theorem c5_save_failure_isolated_witness :
    (submit_with_network c5_s "Agent" (Except.error "network down")).1.user_answers
        = ["Agent"]
    ∧ (submit_with_network c5_s "Agent" (Except.error "network down")).2
        = [SaveReport.logged
            ("Error saving vote in background thread: " ++ "network down")] := by
  have h := c5_save_failure_isolated c5_s "Agent" "network down" (by decide)
  exact ⟨by simpa using h.2.1, h.2.2.2⟩

/-- C8: from every reachable application state, the restart action resets
the session to NotStarted — answers empty, question index 0, completed
flag cleared — draws a fresh session identifier distinct from every
previously generated one, and leaves the previously written vote records
untouched. -/
theorem c8_restart_resets (a : AppState) (h : Reachable a) :
    (resetState a).session.quiz_started = false
    ∧ (resetState a).session.current_question = 0
    ∧ (resetState a).session.user_answers = []
    ∧ (resetState a).session.quiz_completed = false
    ∧ (resetState a).session.session_id ∉ a.usedIds
    ∧ (resetState a).votesLog = a.votesLog := by
  obtain ⟨_, _, _, _, h4⟩ := inv_reachable a h
  refine ⟨rfl, rfl, rfl, rfl, ?_, rfl⟩
  intro hmem
  have hlt := h4 _ hmem
  simp only [resetState] at hlt
  omega

/-- C8 witness: the theorem applied to the initial state. -/
theorem c8_restart_resets_witness :
    (resetState initState).session.user_answers = []
    ∧ (resetState initState).session.session_id ∉ initState.usedIds
    ∧ (resetState initState).votesLog = initState.votesLog := by
  have h := c8_restart_resets initState Reachable.init
  exact ⟨h.2.2.1, h.2.2.2.2.1, h.2.2.2.2.2⟩
